import Mathlib

/-!
Shallow embedding of `src/CovidDashboard.py`, a Dash dashboard that loads a
COVID-19 table, enriches it with two derived rates, aggregates it by
(Country/Region, WHO Region), and serves six chart builders behind a
country/death-range filter callback.

Tables are lists of rows; pandas numeric cells are rationals (the CSV holds
integer counts, and the derived CFR/RecoveryRate columns are true quotients).
Pandas boolean indexing is `List.filter`, `groupby(...).agg(...)` is dedup of
the key column followed by per-key reduction (pandas sorts group keys, modelled
with a lexicographic merge sort), `nlargest` is a stable descending sort
followed by `take`, and the Dash callback is explicit state passing: it
receives the aggregated table and returns it unchanged next to the six
figures.  Plotly figure objects are reduced to the data rows they plot plus
their title; the density figure keeps its x-grid.
-/

namespace Covid19

/-- One cleaned raw record of the CSV (after `data.fillna(0)`): the two key
columns `Country/Region` and `WHO Region` plus the seven numeric count
columns.  Missing cells have already been replaced by 0, so every numeric
field is a plain rational. -/
structure RawRow where
  country : String
  whoRegion : String
  confirmed : ℚ
  deaths : ℚ
  recovered : ℚ
  active : ℚ
  newCases : ℚ
  newDeaths : ℚ
  newRecovered : ℚ
deriving DecidableEq, Repr

/-- A row after the two derived columns `CFR` and `RecoveryRate` have been
added (lines 13-14 of the source). -/
structure Row extends RawRow where
  cfr : ℚ
  recoveryRate : ℚ
deriving DecidableEq, Repr

/-- Lines 13-14: `data['CFR'] = np.where(data['Confirmed'] > 0,
(data['Deaths'] / data['Confirmed']) * 100, 0)` and the analogous
`RecoveryRate` column from `Recovered`. -/
def enrich (r : RawRow) : Row :=
  { toRawRow := r
    cfr := if r.confirmed > 0 then r.deaths / r.confirmed * 100 else 0
    recoveryRate := if r.confirmed > 0 then r.recovered / r.confirmed * 100 else 0 }

/-- The `groupby` key of a row: the pair (Country/Region, WHO Region). -/
def pairKey (r : Row) : String × String := (r.country, r.whoRegion)

/-- Lexicographic order on group keys; pandas `groupby` sorts the groups by
key (`sort=True` is the default). -/
def keyLe (a b : String × String) : Bool :=
  decide (a.1 < b.1) || (decide (a.1 = b.1) && decide (a.2 ≤ b.2))

/-- The distinct (country, region) pairs of the table, in the sorted order
pandas `groupby` produces them. -/
def groupKeys (t : List Row) : List (String × String) :=
  ((t.map pairKey).dedup).mergeSort keyLe

/-- The rows of the table belonging to one group key. -/
def groupOf (t : List Row) (k : String × String) : List Row :=
  t.filter (fun r => decide (pairKey r = k))

/-- Reduction `'sum'` of one numeric column over a group. -/
def sumBy (f : Row → ℚ) (g : List Row) : ℚ := (g.map f).sum

/-- Reduction `'mean'` of one numeric column over a group. -/
def meanBy (f : Row → ℚ) (g : List Row) : ℚ := (g.map f).sum / (g.length : ℚ)

/-- One aggregated record (lines 16-26): the seven count columns are summed
over the group, `CFR` and `RecoveryRate` are averaged, and `reset_index`
turns the key back into the two string columns. -/
def aggRow (t : List Row) (k : String × String) : Row :=
  { country := k.1
    whoRegion := k.2
    confirmed := sumBy (fun r => r.confirmed) (groupOf t k)
    deaths := sumBy (fun r => r.deaths) (groupOf t k)
    recovered := sumBy (fun r => r.recovered) (groupOf t k)
    active := sumBy (fun r => r.active) (groupOf t k)
    newCases := sumBy (fun r => r.newCases) (groupOf t k)
    newDeaths := sumBy (fun r => r.newDeaths) (groupOf t k)
    newRecovered := sumBy (fun r => r.newRecovered) (groupOf t k)
    cfr := meanBy (fun r => r.cfr) (groupOf t k)
    recoveryRate := meanBy (fun r => r.recoveryRate) (groupOf t k) }

/-- The aggregated table `grouped_data` (lines 16-26), one row per distinct
(Country/Region, WHO Region) pair of the input. -/
def grouped_data (t : List Row) : List Row :=
  (groupKeys t).map (aggRow t)

/-- `data['Country/Region'].nunique()`: the number of distinct countries. -/
def nuniqueCountry (t : List Row) : Nat :=
  ((t.map (fun r => r.country)).dedup).length

/-- Stable descending sort by one column; ties keep their original order,
matching pandas `nlargest` with its default `keep='first'`. -/
def sortDescBy (f : Row → ℚ) (t : List Row) : List Row :=
  t.mergeSort (fun a b => decide (f b ≤ f a))

/-- `data.nlargest(n, col)`: the first `n` rows of the stable descending
sort by `col`. -/
def nlargest (n : Nat) (f : Row → ℚ) (t : List Row) : List Row :=
  (sortDescBy f t).take n

/-- A plotly figure, reduced to the rows it plots and its title; the axis
and styling keyword arguments carry no data and are not modelled. -/
structure Figure where
  rows : List Row
  title : String
deriving DecidableEq, Repr

/-- Lines 32-37: all rows when exactly one distinct country remains,
otherwise the 5 rows with the largest `Deaths`. -/
def create_line_chart (data : List Row) : Figure :=
  let top_data := if nuniqueCountry data = 1 then data else nlargest 5 (fun r => r.deaths) data
  { rows := top_data, title := "Top 5 Countries: Deaths and Confirmed Cases" }

/-- Lines 39-42: scatter of Confirmed vs Deaths over all filtered rows. -/
def create_scatter_plot (data : List Row) : Figure :=
  { rows := data, title := "Confirmed vs Deaths with WHO Region Colors" }

/-- Lines 44-49: all rows when exactly one distinct country remains,
otherwise the 10 rows with the largest `RecoveryRate`. -/
def create_bar_chart (data : List Row) : Figure :=
  let top_data := if nuniqueCountry data = 1 then data else nlargest 10 (fun r => r.recoveryRate) data
  { rows := top_data, title := "Top 10 Countries by Recovery Rate" }

/-- Lines 51-54: box plot of Deaths by WHO Region over all filtered rows. -/
def create_box_plot (data : List Row) : Figure :=
  { rows := data, title := "Deaths Distribution by WHO Region" }

/-- Lines 56-58: faceted scatter of New cases vs New deaths over all
filtered rows. -/
def create_faceted_plot (data : List Row) : Figure :=
  { rows := data, title := "New Cases vs New Deaths by WHO Region" }

/-- Minimum of a list of rationals; only applied to non-empty lists
(`cfr_vals.min()`). -/
def listMin : List ℚ → ℚ
  | [] => 0
  | x :: xs => xs.foldl min x

/-- Maximum of a list of rationals; only applied to non-empty lists
(`cfr_vals.max()`). -/
def listMax : List ℚ → ℚ
  | [] => 0
  | x :: xs => xs.foldl max x

/-- `np.linspace(a, b, n)` for `n ≥ 2`: `n` evenly spaced points from `a`
to `b` inclusive. -/
def linspace (a b : ℚ) (n : Nat) : List ℚ :=
  (List.range n).map (fun i => a + (b - a) * (i : ℚ) / ((n : ℚ) - 1))

/-- The density figure: either an estimated curve, kept as the x-grid the
density is evaluated on (the y values come from the external scipy KDE and
carry no property the source relies on), or the placeholder figure titled
"Distribution of Case Fatality Rates (Insufficient Data)". -/
inductive DensityFigure where
  | curve (xs : List ℚ) : DensityFigure
  | insufficientData : DensityFigure
deriving DecidableEq, Repr

/-- Lines 60-74.  `dropna` is the identity here: after `fillna(0)` the CFR
column contains no missing value.  When `len(cfr_vals) > 1` the source calls
`scipy.stats.gaussian_kde(cfr_vals)`; that constructor fails with a
`LinAlgError` when the data set has zero variance (all values equal, so the
covariance matrix is singular), which `none` models.  Otherwise the curve is
evaluated on `np.linspace(cfr_vals.min(), cfr_vals.max(), 200)`. -/
def create_density_plot (data : List Row) : Option DensityFigure :=
  let cfr_vals := data.map (fun r => r.cfr)
  if cfr_vals.length > 1 then
    if listMin cfr_vals = listMax cfr_vals then
      none
    else
      some (DensityFigure.curve (linspace (listMin cfr_vals) (listMax cfr_vals) 200))
  else
    some DensityFigure.insufficientData

/-- Lines 136-144 of `update_charts`: keep the rows whose `Deaths` lies in
the inclusive slider range, then restrict to the selected country unless the
sentinel `'all'` is selected. -/
def filterRows (grouped : List Row) (selected_country : String) (min_deaths max_deaths : ℚ) :
    List Row :=
  let filtered := grouped.filter (fun r =>
    decide (min_deaths ≤ r.deaths) && decide (r.deaths ≤ max_deaths))
  if selected_country ≠ "all" then
    filtered.filter (fun r => decide (r.country = selected_country))
  else
    filtered

/-- The six figures the callback returns, in source order. -/
structure Charts where
  line : Figure
  scatter : Figure
  bar : Figure
  box : Figure
  faceted : Figure
  density : Option DensityFigure
deriving DecidableEq, Repr

/-- Lines 135-153, with the state made explicit: the callback reads the
aggregated table `grouped_data` (a module-level value it never reassigns —
boolean indexing builds a new frame), so it is embedded as a function that
receives that table and hands it back unchanged next to the six figures. -/
def update_charts (grouped : List Row) (selected_country : String) (min_deaths max_deaths : ℚ) :
    List Row × Charts :=
  let filtered := filterRows grouped selected_country min_deaths max_deaths
  (grouped,
   { line := create_line_chart filtered
     scatter := create_scatter_plot filtered
     bar := create_bar_chart filtered
     box := create_box_plot filtered
     faceted := create_faceted_plot filtered
     density := create_density_plot filtered })

/-- String comparison used by Python `sorted` on the country names. -/
def strLe (a b : String) : Bool := decide (a ≤ b)

/-- Line 29: `[{'label': c, 'value': c} for c in
sorted(grouped_data['Country/Region'].unique())]`, as (label, value)
pairs. -/
def country_options (grouped : List Row) : List (String × String) :=
  (((grouped.map (fun r => r.country)).dedup).mergeSort strLe).map (fun c => (c, c))

/-- The dropdown control, reduced to the properties the layout sets. -/
structure DropdownControl where
  options : List (String × String)
  value : String
  clearable : Bool
  multi : Bool
deriving DecidableEq, Repr

/-- Lines 85-90: the country dropdown.  `multi` is not set in the source and
defaults to single-select. -/
def country_dropdown (grouped : List Row) : DropdownControl :=
  { options := ("All", "all") :: country_options grouped
    value := "all"
    clearable := false
    multi := false }

/-- Python `int()` on a rational: truncation toward zero. -/
def pyInt (q : ℚ) : ℤ := if 0 ≤ q then q.floor else q.ceil

/-- `grouped_data['Deaths'].max()`: `none` on an empty table (pandas yields
NaN there and the layout's `int(...)` raises at startup). -/
def maxDeaths (grouped : List Row) : Option ℚ :=
  (grouped.map (fun r => r.deaths)).max?

/-- The range-slider control, reduced to the properties the layout sets;
`marks` is the Python dict as a lookup function. -/
structure RangeSliderControl where
  min : ℤ
  max : ℤ
  step : ℤ
  value : ℤ × ℤ
  marks : ℤ → Option String

/-- Lines 96-110: the death-range slider.  The marks dict literal binds the
keys 0, 10000, 50000, 100000 and `int(max)` in that order, so on a key
collision the final `int(max)` binding wins, matching Python dict
semantics. -/
def death_slider (grouped : List Row) : Option RangeSliderControl :=
  (maxDeaths grouped).map (fun mx =>
    let M : ℤ := pyInt mx
    { min := 0
      max := M
      step := 1000
      value := (0, M)
      marks := fun k =>
        if k = M then some (toString M ++ "+")
        else if k = 0 then some "0"
        else if k = 10000 then some "10K"
        else if k = 50000 then some "50K"
        else if k = 100000 then some "100K+"
        else none })

/-- A sample cleaned raw record used to instantiate the universally
quantified theorems below. -/
def sampleRaw : RawRow := ⟨"France", "Europe", 100, 5, 50, 45, 1, 2, 3⟩

/-- A sample aggregated record used to instantiate the universally
quantified theorems below. -/
def sampleRow : Row := ⟨⟨"France", "Europe", 100, 5, 50, 45, 1, 2, 3⟩, 5, 50⟩

/-- C4: for every raw record with a non-negative Confirmed count, the derived
fields satisfy CFR = RecoveryRate = 0 when Confirmed = 0, and otherwise
CFR = Deaths/Confirmed × 100 and RecoveryRate = Recovered/Confirmed × 100. -/
theorem derived_rates_spec (r : RawRow) (h : 0 ≤ r.confirmed) :
    (r.confirmed = 0 → (enrich r).cfr = 0 ∧ (enrich r).recoveryRate = 0) ∧
    (r.confirmed ≠ 0 →
      (enrich r).cfr = r.deaths / r.confirmed * 100 ∧
      (enrich r).recoveryRate = r.recovered / r.confirmed * 100) := by
  constructor
  · intro h0
    simp [enrich, h0]
  · intro h0
    have hpos : 0 < r.confirmed := lt_of_le_of_ne h (Ne.symm h0)
    simp [enrich, hpos]

/-- Witness for `derived_rates_spec` at a concrete record. -/
theorem derived_rates_spec_witness :
    (sampleRaw.confirmed = 0 → (enrich sampleRaw).cfr = 0 ∧ (enrich sampleRaw).recoveryRate = 0) ∧
    (sampleRaw.confirmed ≠ 0 →
      (enrich sampleRaw).cfr = sampleRaw.deaths / sampleRaw.confirmed * 100 ∧
      (enrich sampleRaw).recoveryRate = sampleRaw.recovered / sampleRaw.confirmed * 100) :=
  derived_rates_spec sampleRaw (by decide)

/-- C7: the aggregated table has at most as many rows as the cleaned raw
table it is computed from. -/
theorem aggregated_rows_le (t : List Row) : (grouped_data t).length ≤ t.length := by
  unfold grouped_data groupKeys
  rw [List.length_map, List.length_mergeSort]
  have h1 : (t.map pairKey).dedup.length ≤ (t.map pairKey).length :=
    (List.dedup_sublist _).length_le
  simpa using h1

/-- C2: the Filter Engine's output is a sublist (hence a subset of the rows)
of its input, and every output row has Deaths inside the inclusive range and
matches the selected country unless the sentinel "all" is selected. -/
theorem filter_engine_spec (t : List Row) (sel : String) (lo hi : ℚ) :
    (filterRows t sel lo hi).Sublist t ∧
    ∀ r ∈ filterRows t sel lo hi,
      lo ≤ r.deaths ∧ r.deaths ≤ hi ∧ (r.country = sel ∨ sel = "all") := by
  by_cases hsel : sel = "all"
  · have hfr : filterRows t sel lo hi =
        t.filter (fun r => decide (lo ≤ r.deaths) && decide (r.deaths ≤ hi)) := by
      simp [filterRows, hsel]
    rw [hfr]
    refine ⟨List.filter_sublist _, ?_⟩
    intro r hr
    rw [List.mem_filter] at hr
    have hc := hr.2
    simp only [Bool.and_eq_true, decide_eq_true_eq] at hc
    exact ⟨hc.1, hc.2, Or.inr hsel⟩
  · have hfr : filterRows t sel lo hi =
        (t.filter (fun r => decide (lo ≤ r.deaths) && decide (r.deaths ≤ hi))).filter
          (fun r => decide (r.country = sel)) := by
      simp [filterRows, hsel]
    rw [hfr]
    refine ⟨(List.filter_sublist _).trans (List.filter_sublist _), ?_⟩
    intro r hr
    rw [List.mem_filter] at hr
    obtain ⟨hr1, hcountry⟩ := hr
    rw [List.mem_filter] at hr1
    have hc := hr1.2
    simp only [Bool.and_eq_true, decide_eq_true_eq] at hc
    simp only [decide_eq_true_eq] at hcountry
    exact ⟨hc.1, hc.2, Or.inl hcountry⟩

/-- Witness for `filter_engine_spec` at a concrete table and selection. -/
theorem filter_engine_spec_witness :
    (0:ℚ) ≤ sampleRow.deaths ∧ sampleRow.deaths ≤ 10 ∧
      (sampleRow.country = "all" ∨ "all" = "all") :=
  (filter_engine_spec [sampleRow] "all" 0 10).2 sampleRow (by decide)

/-- C6: whenever the filtered table is empty, every one of the six chart
builders degrades gracefully: the five plotly builders return a figure over
the empty row list, and the density builder returns the "Insufficient Data"
placeholder (no failure path is reachable on an empty table). -/
theorem empty_filter_charts_spec (t : List Row) (sel : String) (lo hi : ℚ)
    (h : filterRows t sel lo hi = []) :
    (create_line_chart (filterRows t sel lo hi)).rows = [] ∧
    (create_scatter_plot (filterRows t sel lo hi)).rows = [] ∧
    (create_bar_chart (filterRows t sel lo hi)).rows = [] ∧
    (create_box_plot (filterRows t sel lo hi)).rows = [] ∧
    (create_faceted_plot (filterRows t sel lo hi)).rows = [] ∧
    create_density_plot (filterRows t sel lo hi) = some DensityFigure.insufficientData := by
  rw [h]
  refine ⟨?_, rfl, ?_, rfl, rfl, rfl⟩
  · simp [create_line_chart, nuniqueCountry, nlargest, sortDescBy, List.mergeSort_nil]
  · simp [create_bar_chart, nuniqueCountry, nlargest, sortDescBy, List.mergeSort_nil]

/-- Witness for `empty_filter_charts_spec`: the death range [0, 0] on a table
whose single country has 5 deaths filters down to the empty table. -/
theorem empty_filter_charts_spec_witness :
    (create_line_chart (filterRows [sampleRow] "all" 0 0)).rows = [] ∧
    (create_scatter_plot (filterRows [sampleRow] "all" 0 0)).rows = [] ∧
    (create_bar_chart (filterRows [sampleRow] "all" 0 0)).rows = [] ∧
    (create_box_plot (filterRows [sampleRow] "all" 0 0)).rows = [] ∧
    (create_faceted_plot (filterRows [sampleRow] "all" 0 0)).rows = [] ∧
    create_density_plot (filterRows [sampleRow] "all" 0 0) =
      some DensityFigure.insufficientData :=
  empty_filter_charts_spec [sampleRow] "all" 0 0 (by decide)

/-- C8: the update callback never mutates the aggregated table: it returns
its state component unchanged, the six figures are a pure function of the
filtered view, and any sequence of callback invocations leaves the
startup-computed aggregated table fixed. -/
theorem update_charts_frame (g : List Row) (sel : String) (lo hi : ℚ) :
    (update_charts g sel lo hi).1 = g ∧
    (update_charts g sel lo hi).2 =
      { line := create_line_chart (filterRows g sel lo hi)
        scatter := create_scatter_plot (filterRows g sel lo hi)
        bar := create_bar_chart (filterRows g sel lo hi)
        box := create_box_plot (filterRows g sel lo hi)
        faceted := create_faceted_plot (filterRows g sel lo hi)
        density := create_density_plot (filterRows g sel lo hi) } ∧
    ∀ events : List (String × ℚ × ℚ),
      events.foldl (fun s e => (update_charts s e.1 e.2.1 e.2.2).1) g = g := by
  refine ⟨rfl, rfl, ?_⟩
  intro events
  induction events with
  | nil => rfl
  | cons e es ih => exact ih

/-- A second sample aggregated record, giving a table with two distinct
countries. -/
def sampleRow2 : Row := ⟨⟨"Germany", "Europe", 200, 8, 150, 42, 1, 2, 3⟩, 4, 75⟩

/-- `nlargest n f` keeps at most `n` rows, and the kept rows together with
the dropped rows permute the input while every dropped row's key is at most
every kept row's key. -/
theorem nlargest_topk (n : Nat) (f : Row → ℚ) (t : List Row) :
    (nlargest n f t).length ≤ n ∧
    ∃ rest, ((nlargest n f t) ++ rest).Perm t ∧
      ∀ a ∈ nlargest n f t, ∀ b ∈ rest, f b ≤ f a := by
  have htrans : ∀ a b c : Row, (decide (f b ≤ f a)) = true →
      (decide (f c ≤ f b)) = true → (decide (f c ≤ f a)) = true := by
    intro a b c hab hbc
    simp only [decide_eq_true_eq] at hab hbc ⊢
    exact le_trans hbc hab
  have htotal : ∀ a b : Row, (decide (f b ≤ f a) || decide (f a ≤ f b)) = true := by
    intro a b
    simp only [Bool.or_eq_true, decide_eq_true_eq]
    exact le_total (f b) (f a)
  have hsorted : List.Pairwise (fun a b => decide (f b ≤ f a) = true) (sortDescBy f t) :=
    List.sorted_mergeSort htrans htotal t
  have hperm : (sortDescBy f t).Perm t := List.mergeSort_perm t _
  refine ⟨?_, (sortDescBy f t).drop n, ?_, ?_⟩
  · calc (nlargest n f t).length = min n (sortDescBy f t).length := List.length_take n _
      _ ≤ n := min_le_left n _
  · rw [nlargest, List.take_append_drop]
    exact hperm
  · intro a ha b hb
    rw [← List.take_append_drop n (sortDescBy f t)] at hsorted
    have := (List.pairwise_append.mp hsorted).2.2 a ha b hb
    simpa using this

/-- C3: with exactly one distinct country the line and bar builders plot the
input rows unchanged; otherwise the line builder plots at most 5 rows and
the bar builder at most 10, each a top-k selection by descending Deaths
respectively RecoveryRate (every unplotted row's key is dominated by every
plotted row's key). -/
theorem line_bar_builders_spec (t : List Row) :
    (nuniqueCountry t = 1 →
      (create_line_chart t).rows = t ∧ (create_bar_chart t).rows = t) ∧
    (nuniqueCountry t ≠ 1 →
      ((create_line_chart t).rows.length ≤ 5 ∧
        ∃ rest, ((create_line_chart t).rows ++ rest).Perm t ∧
          ∀ a ∈ (create_line_chart t).rows, ∀ b ∈ rest, b.deaths ≤ a.deaths) ∧
      ((create_bar_chart t).rows.length ≤ 10 ∧
        ∃ rest, ((create_bar_chart t).rows ++ rest).Perm t ∧
          ∀ a ∈ (create_bar_chart t).rows, ∀ b ∈ rest, b.recoveryRate ≤ a.recoveryRate)) := by
  constructor
  · intro h1
    constructor
    · simp [create_line_chart, h1]
    · simp [create_bar_chart, h1]
  · intro h1
    have hline : (create_line_chart t).rows = nlargest 5 (fun r => r.deaths) t := by
      simp [create_line_chart, h1]
    have hbar : (create_bar_chart t).rows = nlargest 10 (fun r => r.recoveryRate) t := by
      simp [create_bar_chart, h1]
    rw [hline, hbar]
    exact ⟨nlargest_topk 5 _ t, nlargest_topk 10 _ t⟩

/-- Witness for `line_bar_builders_spec`: the single-country branch on a
singleton table and the top-k branch on a two-country table. -/
theorem line_bar_builders_spec_witness :
    ((create_line_chart [sampleRow]).rows = [sampleRow] ∧
      (create_bar_chart [sampleRow]).rows = [sampleRow]) ∧
    (((create_line_chart [sampleRow, sampleRow2]).rows.length ≤ 5 ∧
      ∃ rest, ((create_line_chart [sampleRow, sampleRow2]).rows ++ rest).Perm
          [sampleRow, sampleRow2] ∧
        ∀ a ∈ (create_line_chart [sampleRow, sampleRow2]).rows, ∀ b ∈ rest,
          b.deaths ≤ a.deaths) ∧
     ((create_bar_chart [sampleRow, sampleRow2]).rows.length ≤ 10 ∧
      ∃ rest, ((create_bar_chart [sampleRow, sampleRow2]).rows ++ rest).Perm
          [sampleRow, sampleRow2] ∧
        ∀ a ∈ (create_bar_chart [sampleRow, sampleRow2]).rows, ∀ b ∈ rest,
          b.recoveryRate ≤ a.recoveryRate)) :=
  ⟨(line_bar_builders_spec [sampleRow]).1 (by decide),
   (line_bar_builders_spec [sampleRow, sampleRow2]).2 (by decide)⟩

/-- C5: for every (country, region) pair present in the table, the
aggregated table holds exactly one record with that key, and its seven count
columns are the sums — and CFR/RecoveryRate the means — of the corresponding
columns over the rows sharing the pair. -/
theorem aggregation_spec (t : List Row) (c w : String)
    (h : ∃ r ∈ t, r.country = c ∧ r.whoRegion = w) :
    ∃ g ∈ grouped_data t,
      g.country = c ∧ g.whoRegion = w ∧
      g.confirmed = sumBy (fun r => r.confirmed) (groupOf t (c, w)) ∧
      g.deaths = sumBy (fun r => r.deaths) (groupOf t (c, w)) ∧
      g.recovered = sumBy (fun r => r.recovered) (groupOf t (c, w)) ∧
      g.active = sumBy (fun r => r.active) (groupOf t (c, w)) ∧
      g.newCases = sumBy (fun r => r.newCases) (groupOf t (c, w)) ∧
      g.newDeaths = sumBy (fun r => r.newDeaths) (groupOf t (c, w)) ∧
      g.newRecovered = sumBy (fun r => r.newRecovered) (groupOf t (c, w)) ∧
      g.cfr = meanBy (fun r => r.cfr) (groupOf t (c, w)) ∧
      g.recoveryRate = meanBy (fun r => r.recoveryRate) (groupOf t (c, w)) ∧
      (∀ g' ∈ grouped_data t, g'.country = c → g'.whoRegion = w → g' = g) := by
  obtain ⟨r, hrt, hrc, hrw⟩ := h
  have hk : (c, w) ∈ t.map pairKey := by
    refine List.mem_map.mpr ⟨r, hrt, ?_⟩
    simp [pairKey, hrc, hrw]
  have hk2 : (c, w) ∈ groupKeys t := by
    unfold groupKeys
    exact ((List.mergeSort_perm _ keyLe).mem_iff).mpr (List.mem_dedup.mpr hk)
  refine ⟨aggRow t (c, w), List.mem_map_of_mem _ hk2,
    rfl, rfl, rfl, rfl, rfl, rfl, rfl, rfl, rfl, rfl, rfl, ?_⟩
  intro g' hg' hc' hw'
  rcases List.mem_map.mp hg' with ⟨k', _, hke⟩
  have h1 : k'.1 = c := by rw [← hke] at hc'; exact hc'
  have h2 : k'.2 = w := by rw [← hke] at hw'; exact hw'
  rw [← hke]
  have hkcw : k' = (c, w) := by
    cases k'
    simp_all
  rw [hkcw]

/-- Witness for `aggregation_spec` at a concrete one-row table. -/
theorem aggregation_spec_witness :
    ∃ g ∈ grouped_data [sampleRow],
      g.country = "France" ∧ g.whoRegion = "Europe" ∧
      g.confirmed = sumBy (fun r => r.confirmed) (groupOf [sampleRow] ("France", "Europe")) ∧
      g.deaths = sumBy (fun r => r.deaths) (groupOf [sampleRow] ("France", "Europe")) ∧
      g.recovered = sumBy (fun r => r.recovered) (groupOf [sampleRow] ("France", "Europe")) ∧
      g.active = sumBy (fun r => r.active) (groupOf [sampleRow] ("France", "Europe")) ∧
      g.newCases = sumBy (fun r => r.newCases) (groupOf [sampleRow] ("France", "Europe")) ∧
      g.newDeaths = sumBy (fun r => r.newDeaths) (groupOf [sampleRow] ("France", "Europe")) ∧
      g.newRecovered = sumBy (fun r => r.newRecovered)
        (groupOf [sampleRow] ("France", "Europe")) ∧
      g.cfr = meanBy (fun r => r.cfr) (groupOf [sampleRow] ("France", "Europe")) ∧
      g.recoveryRate = meanBy (fun r => r.recoveryRate)
        (groupOf [sampleRow] ("France", "Europe")) ∧
      (∀ g' ∈ grouped_data [sampleRow], g'.country = "France" → g'.whoRegion = "Europe" →
        g' = g) :=
  aggregation_spec [sampleRow] "France" "Europe" (by decide)

/-- C9: the layout declares a single-select, non-clearable country dropdown
whose options are "All" (the default selection, value `'all'`) followed by
the distinct countries of the aggregated table, and, on a non-empty
aggregated table, a range slider over [0, int(max Deaths)] with step 1000,
default value [0, int(max Deaths)], and labels present at the marks 0,
10000, 50000, 100000 and the maximum (the maximum's label being
`f"{int(max)}+"`). -/
theorem ui_controls_spec (t : List Row) (h : t ≠ []) :
    (country_dropdown t).options = ("All", "all") :: country_options t ∧
    (country_dropdown t).value = "all" ∧
    (country_dropdown t).clearable = false ∧
    (country_dropdown t).multi = false ∧
    (∀ c, (c, c) ∈ country_options t ↔ c ∈ t.map (fun r => r.country)) ∧
    ∃ s, death_slider t = some s ∧ ∃ m, maxDeaths t = some m ∧
      s.min = 0 ∧ s.max = pyInt m ∧ s.step = 1000 ∧ s.value = (0, pyInt m) ∧
      (s.marks 0).isSome = true ∧ (s.marks 10000).isSome = true ∧
      (s.marks 50000).isSome = true ∧ (s.marks 100000).isSome = true ∧
      s.marks (pyInt m) = some (toString (pyInt m) ++ "+") := by
  refine ⟨rfl, rfl, rfl, rfl, ?_, ?_⟩
  · intro c
    constructor
    · intro hc
      rcases List.mem_map.mp hc with ⟨x, hx, hxe⟩
      have hxc : x = c := congrArg Prod.fst hxe
      subst hxc
      exact List.mem_dedup.mp (((List.mergeSort_perm _ strLe).mem_iff).mp hx)
    · intro hc
      exact List.mem_map_of_mem _
        (((List.mergeSort_perm _ strLe).mem_iff).mpr (List.mem_dedup.mpr hc))
  · have hne : (t.map (fun r => r.deaths)) ≠ [] := by
      cases t with
      | nil => exact absurd rfl h
      | cons a l => simp
    obtain ⟨m, hm⟩ : ∃ m, maxDeaths t = some m := by
      cases hmm : (t.map (fun r => r.deaths)).max? with
      | none => exact absurd (List.max?_eq_none_iff.mp hmm) hne
      | some m => exact ⟨m, by simpa [maxDeaths] using hmm⟩
    refine ⟨{ min := 0, max := pyInt m, step := 1000, value := (0, pyInt m),
              marks := fun k => if k = pyInt m then some (toString (pyInt m) ++ "+")
                else if k = 0 then some "0"
                else if k = 10000 then some "10K"
                else if k = 50000 then some "50K"
                else if k = 100000 then some "100K+"
                else none }, ?_, m, hm, rfl, rfl, rfl, rfl, ?_, ?_, ?_, ?_, ?_⟩
    · rw [death_slider, hm]
      rfl
    · by_cases h0 : (0:ℤ) = pyInt m <;> simp [h0]
    · by_cases h0 : (10000:ℤ) = pyInt m <;> simp [h0]
    · by_cases h0 : (50000:ℤ) = pyInt m <;> simp [h0]
    · by_cases h0 : (100000:ℤ) = pyInt m <;> simp [h0]
    · simp

/-- Witness for `ui_controls_spec` at a concrete one-row aggregated table. -/
theorem ui_controls_spec_witness :
    (country_dropdown [sampleRow]).options = ("All", "all") :: country_options [sampleRow] ∧
    (country_dropdown [sampleRow]).value = "all" ∧
    (country_dropdown [sampleRow]).clearable = false ∧
    (country_dropdown [sampleRow]).multi = false ∧
    (∀ c, (c, c) ∈ country_options [sampleRow] ↔
      c ∈ [sampleRow].map (fun r => r.country)) ∧
    ∃ s, death_slider [sampleRow] = some s ∧ ∃ m, maxDeaths [sampleRow] = some m ∧
      s.min = 0 ∧ s.max = pyInt m ∧ s.step = 1000 ∧ s.value = (0, pyInt m) ∧
      (s.marks 0).isSome = true ∧ (s.marks 10000).isSome = true ∧
      (s.marks 50000).isSome = true ∧ (s.marks 100000).isSome = true ∧
      s.marks (pyInt m) = some (toString (pyInt m) ++ "+") :=
  ui_controls_spec [sampleRow] (by simp)

/-- C10: after the leading "All" entry, the dropdown options are the distinct
countries of the aggregated table in strictly ascending lexicographic order
(hence with no duplicates), each as a (label, value) pair with label =
value = the country, and they cover exactly the countries of the table. -/
theorem dropdown_options_sorted_spec (t : List Row) :
    (country_dropdown t).options.tail = country_options t ∧
    List.Pairwise (fun p q : String × String => p.2 < q.2) (country_options t) ∧
    (∀ c : String, (∃ p ∈ country_options t, p.2 = c) ↔
      c ∈ t.map (fun r => r.country)) := by
  refine ⟨rfl, ?_, ?_⟩
  · have htrans : ∀ a b c : String, strLe a b = true → strLe b c = true →
        strLe a c = true := by
      intro a b c hab hbc
      simp only [strLe, decide_eq_true_eq] at hab hbc ⊢
      exact le_trans hab hbc
    have htotal : ∀ a b : String, (strLe a b || strLe b a) = true := by
      intro a b
      simp only [strLe, Bool.or_eq_true, decide_eq_true_eq]
      exact le_total a b
    have hsorted : List.Pairwise (fun a b => strLe a b = true)
        (((t.map (fun r => r.country)).dedup).mergeSort strLe) :=
      List.sorted_mergeSort htrans htotal _
    have hnodup : (((t.map (fun r => r.country)).dedup).mergeSort strLe).Nodup :=
      ((List.mergeSort_perm _ strLe).nodup_iff).mpr (List.nodup_dedup _)
    have hlt : List.Pairwise (fun a b : String => a < b)
        (((t.map (fun r => r.country)).dedup).mergeSort strLe) := by
      refine (hsorted.and hnodup).imp ?_
      intro a b hab
      rcases hab with ⟨hle, hne⟩
      simp only [strLe, decide_eq_true_eq] at hle
      exact lt_of_le_of_ne hle hne
    rw [country_options, List.pairwise_map]
    exact hlt
  · intro c
    constructor
    · rintro ⟨p, hp, hpc⟩
      rcases List.mem_map.mp hp with ⟨x, hx, hxe⟩
      have hxc : x = c := by rw [← hxe] at hpc; exact hpc
      subst hxc
      exact List.mem_dedup.mp (((List.mergeSort_perm _ strLe).mem_iff).mp hx)
    · intro hc
      refine ⟨(c, c), ?_, rfl⟩
      exact List.mem_map_of_mem _
        (((List.mergeSort_perm _ strLe).mem_iff).mpr (List.mem_dedup.mpr hc))

/-- Two aggregated records with equal CFR values (5 = 5/100×100 =
10/200×100): together they defeat the density builder's guard. -/
def degRowA : Row := ⟨⟨"Laos", "South-East Asia", 100, 5, 50, 45, 1, 2, 3⟩, 5, 50⟩

/-- Second record of the degenerate pair; a different country, same CFR. -/
def degRowB : Row := ⟨⟨"Nepal", "South-East Asia", 200, 10, 100, 90, 1, 2, 3⟩, 5, 50⟩

/-- C1: the code checks `len(cfr_vals) > 1`, not the number of distinct CFR
values.  On a two-row table whose CFR values are equal there are fewer than
2 distinct CFR values, so the claim requires the "Insufficient Data"
placeholder, but the guard passes and the code hands the zero-variance data
to `gaussian_kde`, which raises `LinAlgError` (modelled by `none`) instead
of returning any figure. -/
theorem density_guard_code_bug :
    (([degRowA, degRowB].map (fun r => r.cfr)).dedup.length < 2) ∧
    create_density_plot [degRowA, degRowB] ≠ some DensityFigure.insufficientData ∧
    create_density_plot [degRowA, degRowB] = none := by decide

end Covid19
